import Mathlib

/-!
# TeamsFx credential/token-acquisition subsystem: a shallow embedding

This file embeds, in Lean, the token-acquisition core of the repository:

* `OnBehalfOfUserCredential` (src/unnamed/part_001): the constructor's
  configuration validation and SSO-token decoding, and `getToken` with its
  empty-scope short-circuit, its scoped On-Behalf-Of exchange against the
  identity provider, and `generateAuthServerError`'s mapping of provider
  errors to the SDK's typed error codes.
* `parseToken` and `UserType` (src/unnamed/part_009): version dispatch on the
  decoded `ver` claim and the user / service-principal classification.
* The browser-side cached broker (`TeamsUserCredential`), whose source is not
  under src/: those definitions are modelled from the specification and are
  marked as such in their doc comments.

Machine integers and timestamps are naturals; JavaScript `Date.now()` values
are milliseconds, JWT `exp` claims are seconds, and the division
`Math.floor(Date.now() / 1000)` is Nat division.  Fallible code returns
`Except`.  The identity provider (`msalClient.acquireTokenOnBehalfOf`) is an
explicit oracle argument so that network behaviour is part of the state.
-/

namespace TeamsFx

/-- `s.indexOf(pat) >= 0` of JavaScript strings: `pat` occurs contiguously in
`s`. -/
def strContains (s pat : String) : Bool := decide (pat.data <:+: s.data)

/-- JavaScript truthiness of an optional string (`undefined`, `null` and the
empty string are falsy). -/
def jsTruthy : Option String → Bool
  | none => false
  | some s => s != ""

/-- What JavaScript string coercion makes of an optional string: `undefined`
prints as "undefined". -/
def jsString : Option String → String
  | none => "undefined"
  | some s => s

/-- The stable error codes of the SDK's `ErrorWithCode` used by this core.
Modelled from the spec: `ErrorCode` (core/errors) is not under src/; §7 lists
the six codes and §4.1 names `UnsupportedTokenVersion` for the token parser. -/
inductive ErrorCode where
  | InvalidConfiguration
  | InvalidParameter
  | TokenExpiredError
  | UiRequiredError
  | InternalError
  | ServiceError
  | UnsupportedTokenVersion
deriving DecidableEq, Repr

/-- A thrown JavaScript error value as this code base produces them: either the
SDK's typed `ErrorWithCode` (a message plus a stable `ErrorCode`) or a bare
`Error` carrying only a message. -/
inductive JsError where
  | withCode (message : String) (code : ErrorCode)
  | bare (message : String)
deriving DecidableEq, Repr

/-- The stable code an error carries, when it is a typed one. -/
def JsError.code : JsError → Option ErrorCode
  | .withCode _ c => some c
  | .bare _ => none

/-- The message of a thrown error. -/
def JsError.message : JsError → String
  | .withCode m _ => m
  | .bare m => m

/-- The code of the error a fallible computation threw (`none` when it
succeeded or threw a bare error). -/
def exceptErrorCode {α : Type} : Except JsError α → Option ErrorCode
  | .error e => e.code
  | .ok _ => none

/-- `AccessToken` of `@azure/identity` as this code uses it: the bearer token
string plus its expiry timestamp (a JavaScript number, here a natural). -/
structure AccessToken where
  token : String
  expiresOnTimestamp : Nat
deriving DecidableEq, Repr

/-- The `authentication` section of the SDK configuration: the optional string
fields the credential constructors read. -/
structure AuthenticationConfig where
  clientId : Option String := none
  authorityHost : Option String := none
  clientSecret : Option String := none
  tenantId : Option String := none
  initiateLoginEndpoint : Option String := none
deriving DecidableEq, Repr

/-- Modelled from the spec: the process-wide configuration object read through
`config` (core/configurationProvider, not under src/); it may or may not carry
an `authentication` section, and the credential reads it with optional
chaining (`config?.authentication?.field`). -/
structure Config where
  authentication : Option AuthenticationConfig
deriving DecidableEq, Repr

/-- The value of `config?.authentication?.f`: `undefined` when either level is
absent. -/
def Config.authField (cfg : Config) (f : AuthenticationConfig → Option String) :
    Option String :=
  cfg.authentication.bind f

/-- The list of missing configuration names the constructor of
`OnBehalfOfUserCredential` accumulates (src/unnamed/part_001, lines 49-64): a
name is pushed exactly when the corresponding `config?.authentication?` field
is falsy, in the fixed order clientId, authorityHost, clientSecret, tenantId. -/
def missingConfigurations (cfg : Config) : List String :=
  (if jsTruthy (cfg.authField AuthenticationConfig.clientId) then [] else ["clientId"]) ++
  (if jsTruthy (cfg.authField AuthenticationConfig.authorityHost) then [] else ["authorityHost"]) ++
  (if jsTruthy (cfg.authField AuthenticationConfig.clientSecret) then [] else ["clientSecret"]) ++
  (if jsTruthy (cfg.authField AuthenticationConfig.tenantId) then [] else ["tenantId"])

/-- Modelled from the spec: `ErrorMessage.InvalidConfiguration` (core/errors,
not under src/) instantiated by `formatString` with the comma-joined missing
names and the string "undefined"; the instantiated template is visible in the
repository's unit tests as, e.g.,
"initiateLoginEndpoint, clientId in configuration is invalid: undefined." -/
def invalidConfigurationMessage (names value : String) : String :=
  names ++ " in configuration is invalid: " ++ value ++ "."

/-- Modelled from the spec: `ErrorMessage.FailToAcquireTokenOnBehalfOfUser`
(core/errors, not under src/) instantiated by `formatString` with the detail
message; §4.4 has the `ServiceError` "carrying the provider's message". -/
def failToAcquireTokenMessage (msg : String) : String :=
  "Failed to acquire access token on behalf of user: " ++ msg

/-- Modelled from the spec: a raw SSO token string as handed to the SDK.  The
token parser (§4.1) either decodes the middle segment of the string to a JSON
claim set or fails; the embedding records, next to the raw string, the `exp`
claim (epoch-seconds) of that claim set when the string has one, which is the
only claim the credential constructor consumes. -/
inductive RawSsoToken where
  | decodable (raw : String) (exp : Nat)
  | malformed (raw : String)
deriving DecidableEq, Repr

/-- The raw string of an SSO token value. -/
def RawSsoToken.raw : RawSsoToken → String
  | .decodable r _ => r
  | .malformed r => r

/-- Modelled from the spec: `parseJwt` (util/utils, not under src/) — decodes a
compact token and fails with a typed error (§7: `InternalError` covers the
"unparseable token" contract violation) when the token is not well-formed. -/
def parseJwt : RawSsoToken → Except JsError Nat
  | .decodable _ exp => .ok exp
  | .malformed _ =>
    .error (.withCode "Parse jwt token failed: invalid token" .InternalError)

/-- The state a constructed `OnBehalfOfUserCredential` holds and `getToken`
reads: the stored SSO `AccessToken` (src/unnamed/part_001, lines 86-90; the
MSAL client is a pure function of the validated configuration and is
abstracted into the provider oracle passed to `getToken`). -/
structure OnBehalfOfUserCredential where
  ssoToken : AccessToken
deriving DecidableEq, Repr

/-- The constructor of `OnBehalfOfUserCredential` (src/unnamed/part_001, lines
46-91): validate the four configuration values, throwing `InvalidConfiguration`
naming every falsy field, then decode the SSO token (propagating `parseJwt`'s
error) and store it with its `exp` claim as expiry. -/
def OnBehalfOfUserCredential.create (cfg : Config) (ssoToken : RawSsoToken) :
    Except JsError OnBehalfOfUserCredential :=
  if missingConfigurations cfg ≠ [] then
    .error (.withCode
      (invalidConfigurationMessage
        (String.intercalate ", " (missingConfigurations cfg)) "undefined")
      .InvalidConfiguration)
  else
    (parseJwt ssoToken).map fun exp =>
      { ssoToken := { token := ssoToken.raw, expiresOnTimestamp := exp } }

/-- The runtime value a JavaScript caller passes as `scopes`: a string, an
array of strings, or — the untyped escape hatch — a value of neither shape. -/
inductive ScopesArg where
  | str (s : String)
  | arr (xs : List String)
  | otherValue (description : String)
deriving DecidableEq, Repr

/-- Modelled from the spec: `validateScopesType` (util/utils, not under src/) —
fails with `InvalidParameter` (§7: "malformed input (e.g. non-string/non-array
scopes); fatal, caller's bug") unless scopes is a string or a string array. -/
def validateScopesType : ScopesArg → Except JsError Unit
  | .str _ => .ok ()
  | .arr _ => .ok ()
  | .otherValue _ =>
    .error (.withCode "The type of scopes is not valid, it must be string or string array"
      .InvalidParameter)

/-- JavaScript `s.split(" ")` over the character list: cut at every space
character, keeping empty segments (so the empty string yields `[""]`).
Structurally recursive so that proofs can evaluate it. -/
def jsSplitSpaceAux : List Char → List Char → List String
  | [], acc => [String.mk acc.reverse]
  | c :: cs, acc =>
    if c = ' ' then String.mk acc.reverse :: jsSplitSpaceAux cs []
    else jsSplitSpaceAux cs (c :: acc)

/-- JavaScript `s.split(" ")`. -/
def jsSplitSpace (s : String) : List String := jsSplitSpaceAux s.data []

/-- The `scopesArray` computation of `getToken` (src/unnamed/part_001, lines
123-124): a string is split on the space character (JavaScript
`scopes.split(" ")`), then null/empty entries are filtered out. -/
def normalizeScopes : ScopesArg → List String
  | .str s => (jsSplitSpace s).filter (fun x => x != "")
  | .arr xs => xs.filter (fun x => x != "")
  | .otherValue _ => []

/-- The error object a failing `acquireTokenOnBehalfOf` call rejects with, as
`generateAuthServerError` reads it: its `name` and its `errorMessage`
property (which may be absent). -/
structure ProviderError where
  name : String
  errorMessage : Option String
deriving DecidableEq, Repr

/-- `AuthenticationResult` of `@azure/msal-node` as `getToken` consumes it: the
access token string and the `expiresOn` Date, kept as its `getTime()` value
(milliseconds since the epoch). -/
structure AuthenticationResult where
  accessToken : String
  expiresOnMs : Nat
deriving DecidableEq, Repr

/-- One outcome of an `msalClient.acquireTokenOnBehalfOf` call: a rejection
with an error object, or resolution with `AuthenticationResult | null`. -/
inductive ProviderOutcome where
  | throws (e : ProviderError)
  | returns (r : Option AuthenticationResult)
deriving DecidableEq, Repr

/-- The identity provider as `getToken` observes it: what a call with a given
assertion and scope list does. -/
def Provider : Type := String → List String → ProviderOutcome

/-- `generateAuthServerError` (src/unnamed/part_001, lines 185-205): map an
error thrown by the provider to a typed SDK error — interaction-required by
`err.name`, then the AADSTS500133 "assertion expired" signature inside a truthy
`errorMessage`, then the catch-all `ServiceError`. -/
def generateAuthServerError (err : ProviderError) : JsError :=
  if err.name = "InteractionRequiredAuthError" then
    .withCode
      ("Failed to get access token from AAD server, interaction required: " ++
        jsString err.errorMessage)
      .UiRequiredError
  else if jsTruthy err.errorMessage &&
      strContains (jsString err.errorMessage) "AADSTS500133" then
    .withCode
      ("Failed to get access token from AAD server, sso token expired: " ++
        jsString err.errorMessage)
      .TokenExpiredError
  else
    .withCode (failToAcquireTokenMessage (jsString err.errorMessage)) .ServiceError

deriving instance DecidableEq for Except

/-- What one `getToken` call produces: the value returned or the error thrown,
how many `acquireTokenOnBehalfOf` network calls were made, and the credential
state left behind. -/
structure GetTokenOutcome where
  result : Except JsError AccessToken
  providerCalls : Nat
  cred : OnBehalfOfUserCredential
deriving DecidableEq, Repr

/-- `getToken` of `OnBehalfOfUserCredential` (src/unnamed/part_001, lines
117-164): validate the scopes value's type, normalize it, and either run the
empty-scope short-circuit — checking `Math.floor(Date.now() / 1000)` against
the stored SSO expiry and returning the stored SSO token — or perform the
scoped On-Behalf-Of exchange, mapping a provider rejection through
`generateAuthServerError`, a null result to `InternalError`, and a result to a
fresh `AccessToken` built from `accessToken` and `expiresOn.getTime()`.  The
method assigns no field, so the credential state comes back unchanged. -/
def OnBehalfOfUserCredential.getToken (cred : OnBehalfOfUserCredential)
    (scopes : ScopesArg) (provider : Provider) (nowMs : Nat) : GetTokenOutcome :=
  match validateScopesType scopes with
  | .error e => ⟨.error e, 0, cred⟩
  | .ok _ =>
    let scopesArray := normalizeScopes scopes
    if scopesArray.isEmpty then
      if nowMs / 1000 > cred.ssoToken.expiresOnTimestamp then
        ⟨.error (.withCode "Sso token has already expired." .TokenExpiredError), 0, cred⟩
      else
        ⟨.ok cred.ssoToken, 0, cred⟩
    else
      match provider cred.ssoToken.token scopesArray with
      | .throws e => ⟨.error (generateAuthServerError e), 1, cred⟩
      | .returns none =>
        ⟨.error (.withCode (failToAcquireTokenMessage "Access token is null") .InternalError),
          1, cred⟩
      | .returns (some r) => ⟨.ok ⟨r.accessToken, r.expiresOnMs⟩, 1, cred⟩

/-- `UserType` (src/unnamed/part_009): the identity classification surfaced by
`parseToken`. -/
inductive UserType where
  | User
  | ServicePrincipal
deriving DecidableEq, Repr

/-- `TokenInfo` (src/unnamed/part_009): name, object id and user type extracted
from a token; claims a token may lack are optional. -/
structure TokenInfo where
  name : Option String
  objectId : Option String
  userType : UserType
deriving DecidableEq, Repr

/-- The claim set `jwtDecode` (an external library) yields for an access token,
restricted to the claims `parseToken` (src/unnamed/part_009) reads; a claim an
actual token does not carry is `none`. -/
structure SqlTokenClaims where
  ver : Option String := none
  appidacr : Option String := none
  azpacr : Option String := none
  name : Option String := none
  oid : Option String := none
  appid : Option String := none
deriving DecidableEq, Repr

/-- `parseToken` (src/unnamed/part_009, lines 22-38) on a decoded claim set:
dispatch on `ver` to pick the authentication-context class claim (`appidacr`
for "1.0", `azpacr` for "2.0", a bare `Error("invalide token")` otherwise),
then classify `"0"` as a user and anything else as a service principal. -/
def parseToken (jwt : SqlTokenClaims) : Except JsError TokenInfo :=
  match (if jwt.ver = some "1.0" then .ok jwt.appidacr
      else if jwt.ver = some "2.0" then .ok jwt.azpacr
      else .error (JsError.bare "invalide token") :
      Except JsError (Option String)) with
  | .error e => .error e
  | .ok authType =>
    if authType = some "0" then
      .ok { name := jwt.name, objectId := jwt.oid, userType := .User }
    else
      .ok { name := jwt.appid, objectId := jwt.oid, userType := .ServicePrincipal }

/-!
## The browser-side cached broker (`TeamsUserCredential`)

The source of `TeamsUserCredential` is not under src/ (only its unit tests
are), so the definitions below are modelled from the specification (§4.2,
§4.3, §4.5) and from what those tests pin down, and the claims they settle are
reported as spec-modelled.
-/

/-- Modelled from the spec: the Token Cache (§4.3) — a process-local in-memory
association from derived cache keys to access tokens. -/
structure TokenCache where
  entries : List (String × AccessToken)
deriving DecidableEq, Repr

/-- Modelled from the spec: `get(key) -> AccessToken | absent` (§4.3). -/
def TokenCache.get (c : TokenCache) (key : String) : Option AccessToken :=
  (c.entries.find? (fun e => e.1 == key)).map (fun e => e.2)

/-- Modelled from the spec: `set(key, token)` overwrites any existing entry for
that key (§4.3). -/
def TokenCache.set (c : TokenCache) (key : String) (tok : AccessToken) : TokenCache :=
  ⟨(key, tok) :: c.entries.filter (fun e => e.1 != key)⟩

/-- Modelled from the spec: the fixed safety margin of `isNearExpired` (§4.3,
"reference margin: 5 minutes"), in milliseconds. -/
def tokenRefreshTimeSpanInMillisecond : Nat := 5 * 60 * 1000

/-- Modelled from the spec: `isNearExpired` (§4.3) — true when the token's
remaining lifetime is at or below the safety margin before actual expiry. -/
def isAccessTokenNearExpired (nowMs expiresOnTimestamp : Nat) : Bool :=
  decide (expiresOnTimestamp ≤ nowMs + tokenRefreshTimeSpanInMillisecond)

/-- Modelled from the spec: the Cache Key Deriver (§4.2) — a deterministic key
from user identity, client identity, tenant identity and the normalized scope
sequence joined in stable input order. -/
def getAccessTokenCacheKey (userObjectId clientId tenantId : String)
    (scopes : ScopesArg) : String :=
  String.intercalate "-"
    [userObjectId, clientId, tenantId, "accessToken",
      String.intercalate " " (normalizeScopes scopes)]

/-- Modelled from the spec: the state of the Remote Token Broker — its token
cache (§4.5 stores results "via 4.3"). -/
structure BrokerState where
  cache : TokenCache
deriving DecidableEq, Repr

/-- What one broker `getToken` call produces: the value returned or error
thrown, the number of remote exchange requests made, and the broker state the
call leaves. -/
structure BrokerOutcome where
  result : Except JsError AccessToken
  exchangeCalls : Nat
  state : BrokerState
deriving DecidableEq, Repr

/-- Modelled from the spec: the scoped path of the Remote Token Broker's
`getToken` (§4.5, `TeamsUserCredential`, not under src/): compute the cache key
from the caller's user/client/tenant context and the requested scopes; on a
cache hit with a non-near-expired token return it with no network call; on a
miss or near-expiry perform a single request to the remote authentication
endpoint, store a successful result in the cache and return it, and surface a
failure (e.g. `UiRequiredError` when not logged in) unchanged. -/
def brokerGetToken (st : BrokerState) (userObjectId clientId tenantId : String)
    (scopes : ScopesArg) (remote : List String → Except JsError AccessToken)
    (nowMs : Nat) : BrokerOutcome :=
  let key := getAccessTokenCacheKey userObjectId clientId tenantId scopes
  let fetch : BrokerOutcome :=
    match remote (normalizeScopes scopes) with
    | .ok tok => ⟨.ok tok, 1, ⟨st.cache.set key tok⟩⟩
    | .error e => ⟨.error e, 1, st⟩
  match st.cache.get key with
  | some tok =>
    if isAccessTokenNearExpired nowMs tok.expiresOnTimestamp then fetch
    else ⟨.ok tok, 0, st⟩
  | none => fetch

/-!
## Helper lemmas
-/

/-- A string contains its own suffix. -/
lemma strContains_append_right (a b : String) : strContains (a ++ b) b = true := by
  unfold strContains
  rw [String.data_append]
  exact decide_eq_true (List.suffix_append a.data b.data).isInfix

/-- The "assertion expired" signature test of the spec: the provider's message
exists and contains "AADSTS500133". -/
def assertionExpiredSignature : Option String → Bool
  | none => false
  | some m => strContains m "AADSTS500133"

/-- The second guard of `generateAuthServerError` — a truthy `errorMessage`
whose `indexOf("AADSTS500133")` is non-negative — is the spec's
assertion-expired signature test. -/
lemma guard_eq_assertionExpiredSignature (m : Option String) :
    (jsTruthy m && strContains (jsString m) "AADSTS500133") =
      assertionExpiredSignature m := by
  cases m with
  | none => rfl
  | some s =>
    by_cases h : s = ""
    · subst h; decide
    · simp [jsTruthy, jsString, assertionExpiredSignature, h]

/-- The provider-error category in the spec's words (§4.4): the three cases in
the order the spec lists them — interactive/consent-required, then the
assertion-expired signature, then the catch-all.  Stated from the spec, to be
compared with `generateAuthServerError` from the source. -/
def specProviderErrorCategory (err : ProviderError) : ErrorCode :=
  if err.name = "InteractionRequiredAuthError" then .UiRequiredError
  else if assertionExpiredSignature err.errorMessage then .TokenExpiredError
  else .ServiceError

/-- `getToken` leaves the credential state unchanged (the method assigns no
field). -/
lemma getToken_cred_unchanged (cred : OnBehalfOfUserCredential)
    (scopes : ScopesArg) (provider : Provider) (nowMs : Nat) :
    (cred.getToken scopes provider nowMs).cred = cred := by
  cases scopes with
  | otherValue d => rfl
  | str s =>
    unfold OnBehalfOfUserCredential.getToken
    dsimp only [validateScopesType]
    split
    · split <;> rfl
    · split <;> rfl
  | arr xs =>
    unfold OnBehalfOfUserCredential.getToken
    dsimp only [validateScopesType]
    split
    · split <;> rfl
    · split <;> rfl

/-- The empty-scope short-circuit of `getToken` with an unexpired SSO token:
the stored SSO token comes back, no provider call is made, and the state is
unchanged. -/
lemma getToken_empty_fresh (cred : OnBehalfOfUserCredential)
    (scopes : ScopesArg) (provider : Provider) (nowMs : Nat)
    (hval : validateScopesType scopes = .ok ())
    (hempty : normalizeScopes scopes = [])
    (hfresh : ¬ nowMs / 1000 > cred.ssoToken.expiresOnTimestamp) :
    cred.getToken scopes provider nowMs = ⟨.ok cred.ssoToken, 0, cred⟩ := by
  cases scopes with
  | otherValue d => simp [validateScopesType] at hval
  | str s =>
    unfold OnBehalfOfUserCredential.getToken
    simp only [validateScopesType, hempty, List.isEmpty_nil, if_true]
    rw [if_neg hfresh]
  | arr xs =>
    unfold OnBehalfOfUserCredential.getToken
    simp only [validateScopesType, hempty, List.isEmpty_nil, if_true]
    rw [if_neg hfresh]

/-- The empty-scope path of `getToken` with an expired SSO token: the typed
`TokenExpiredError` is thrown and no provider call is made. -/
lemma getToken_empty_expired (cred : OnBehalfOfUserCredential)
    (scopes : ScopesArg) (provider : Provider) (nowMs : Nat)
    (hval : validateScopesType scopes = .ok ())
    (hempty : normalizeScopes scopes = [])
    (hexp : nowMs / 1000 > cred.ssoToken.expiresOnTimestamp) :
    cred.getToken scopes provider nowMs =
      ⟨.error (.withCode "Sso token has already expired." .TokenExpiredError), 0, cred⟩ := by
  cases scopes with
  | otherValue d => simp [validateScopesType] at hval
  | str s =>
    unfold OnBehalfOfUserCredential.getToken
    simp only [validateScopesType, hempty, List.isEmpty_nil, if_true]
    rw [if_pos hexp]
  | arr xs =>
    unfold OnBehalfOfUserCredential.getToken
    simp only [validateScopesType, hempty, List.isEmpty_nil, if_true]
    rw [if_pos hexp]

/-- The scoped path of `getToken` when the provider rejects: the rejection is
mapped through `generateAuthServerError` and one provider call is made. -/
lemma getToken_scoped_throws (cred : OnBehalfOfUserCredential)
    (scopes : ScopesArg) (provider : Provider) (nowMs : Nat) (e : ProviderError)
    (hne : normalizeScopes scopes ≠ [])
    (hp : provider cred.ssoToken.token (normalizeScopes scopes) = .throws e) :
    cred.getToken scopes provider nowMs =
      ⟨.error (generateAuthServerError e), 1, cred⟩ := by
  have hval : validateScopesType scopes = .ok () := by
    cases scopes with
    | otherValue d => simp [normalizeScopes] at hne
    | str s => rfl
    | arr xs => rfl
  have hie : (normalizeScopes scopes).isEmpty = false := by
    cases hnn : normalizeScopes scopes with
    | nil => exact absurd hnn hne
    | cons a l => rfl
  cases scopes with
  | otherValue d => simp [normalizeScopes] at hne
  | str s =>
    unfold OnBehalfOfUserCredential.getToken
    simp only [validateScopesType, hie, Bool.false_eq_true, if_false, hp]
  | arr xs =>
    unfold OnBehalfOfUserCredential.getToken
    simp only [validateScopesType, hie, Bool.false_eq_true, if_false, hp]

/-- The scoped path of `getToken` when the provider resolves to `null`: the
defensive `InternalError` is thrown and one provider call is made. -/
lemma getToken_scoped_returns_none (cred : OnBehalfOfUserCredential)
    (scopes : ScopesArg) (provider : Provider) (nowMs : Nat)
    (hne : normalizeScopes scopes ≠ [])
    (hp : provider cred.ssoToken.token (normalizeScopes scopes) = .returns none) :
    cred.getToken scopes provider nowMs =
      ⟨.error (.withCode (failToAcquireTokenMessage "Access token is null") .InternalError),
        1, cred⟩ := by
  have hie : (normalizeScopes scopes).isEmpty = false := by
    cases hnn : normalizeScopes scopes with
    | nil => exact absurd hnn hne
    | cons a l => rfl
  cases scopes with
  | otherValue d => simp [normalizeScopes] at hne
  | str s =>
    unfold OnBehalfOfUserCredential.getToken
    simp only [validateScopesType, hie, Bool.false_eq_true, if_false, hp]
  | arr xs =>
    unfold OnBehalfOfUserCredential.getToken
    simp only [validateScopesType, hie, Bool.false_eq_true, if_false, hp]

/-- The scoped path of `getToken` when the provider resolves with a result: a
fresh `AccessToken` is built from `accessToken` and `expiresOn.getTime()`, and
one provider call is made. -/
lemma getToken_scoped_returns_some (cred : OnBehalfOfUserCredential)
    (scopes : ScopesArg) (provider : Provider) (nowMs : Nat)
    (r : AuthenticationResult)
    (hne : normalizeScopes scopes ≠ [])
    (hp : provider cred.ssoToken.token (normalizeScopes scopes) = .returns (some r)) :
    cred.getToken scopes provider nowMs =
      ⟨.ok ⟨r.accessToken, r.expiresOnMs⟩, 1, cred⟩ := by
  have hie : (normalizeScopes scopes).isEmpty = false := by
    cases hnn : normalizeScopes scopes with
    | nil => exact absurd hnn hne
    | cons a l => rfl
  cases scopes with
  | otherValue d => simp [normalizeScopes] at hne
  | str s =>
    unfold OnBehalfOfUserCredential.getToken
    simp only [validateScopesType, hie, Bool.false_eq_true, if_false, hp]
  | arr xs =>
    unfold OnBehalfOfUserCredential.getToken
    simp only [validateScopesType, hie, Bool.false_eq_true, if_false, hp]

/-- The code of the error `generateAuthServerError` builds is the spec-side
category of the provider error. -/
lemma generateAuthServerError_code_eq (err : ProviderError) :
    (generateAuthServerError err).code = some (specProviderErrorCategory err) := by
  unfold generateAuthServerError specProviderErrorCategory
  rw [guard_eq_assertionExpiredSignature]
  split
  · rfl
  · split <;> rfl

/-- The spec-side category is the assertion-expired one exactly for a
non-interaction-required error whose message carries the signature. -/
lemma specCategory_eq_tokenExpired_iff (err : ProviderError) :
    specProviderErrorCategory err = ErrorCode.TokenExpiredError ↔
      (err.name ≠ "InteractionRequiredAuthError" ∧
        assertionExpiredSignature err.errorMessage = true) := by
  unfold specProviderErrorCategory
  split
  next hin => simp [hin]
  next hin =>
    split
    next hsig => simp [hin, hsig]
    next hsig => simp [hin, hsig]

/-- A freshly `set` entry is what `get` finds under its key. -/
lemma TokenCache.get_set_self (c : TokenCache) (key : String) (tok : AccessToken) :
    (c.set key tok).get key = some tok := by
  simp [TokenCache.get, TokenCache.set, List.find?]

/-!
## The claims
-/

/-- C3: constructing `OnBehalfOfUserCredential` with any of the four
configuration values absent throws `InvalidConfiguration` whose message lists
exactly the names of the absent fields (comma-joined, in the fixed order, no
others and no duplicates); with all four present the constructor never fails
that check; and `getToken` never re-checks the configuration — no call of it
ever produces an `InvalidConfiguration` error. -/
theorem create_validateConfig_once (cfg : Config) (tok : RawSsoToken)
    (cred : OnBehalfOfUserCredential) (scopes : ScopesArg) (provider : Provider)
    (nowMs : Nat) :
    (missingConfigurations cfg ≠ [] →
      OnBehalfOfUserCredential.create cfg tok =
        .error (.withCode
          (invalidConfigurationMessage
            (String.intercalate ", " (missingConfigurations cfg)) "undefined")
          .InvalidConfiguration))
  ∧ (∀ n, n ∈ missingConfigurations cfg ↔
      ((n = "clientId" ∧ jsTruthy (cfg.authField AuthenticationConfig.clientId) = false) ∨
       (n = "authorityHost" ∧ jsTruthy (cfg.authField AuthenticationConfig.authorityHost) = false) ∨
       (n = "clientSecret" ∧ jsTruthy (cfg.authField AuthenticationConfig.clientSecret) = false) ∨
       (n = "tenantId" ∧ jsTruthy (cfg.authField AuthenticationConfig.tenantId) = false)))
  ∧ List.Sublist (missingConfigurations cfg)
      ["clientId", "authorityHost", "clientSecret", "tenantId"]
  ∧ (missingConfigurations cfg = [] →
      exceptErrorCode (OnBehalfOfUserCredential.create cfg tok) ≠
        some ErrorCode.InvalidConfiguration)
  ∧ exceptErrorCode (cred.getToken scopes provider nowMs).result ≠
      some ErrorCode.InvalidConfiguration := by
  refine ⟨?_, ?_, ?_, ?_, ?_⟩
  · intro h
    unfold OnBehalfOfUserCredential.create
    rw [if_pos h]
  · intro n
    unfold missingConfigurations
    cases h1 : jsTruthy (cfg.authField AuthenticationConfig.clientId) <;>
      cases h2 : jsTruthy (cfg.authField AuthenticationConfig.authorityHost) <;>
      cases h3 : jsTruthy (cfg.authField AuthenticationConfig.clientSecret) <;>
      cases h4 : jsTruthy (cfg.authField AuthenticationConfig.tenantId) <;>
      simp
  · unfold missingConfigurations
    cases jsTruthy (cfg.authField AuthenticationConfig.clientId) <;>
      cases jsTruthy (cfg.authField AuthenticationConfig.authorityHost) <;>
      cases jsTruthy (cfg.authField AuthenticationConfig.clientSecret) <;>
      cases jsTruthy (cfg.authField AuthenticationConfig.tenantId) <;>
      simp
  · intro h
    unfold OnBehalfOfUserCredential.create
    rw [if_neg (by simp [h])]
    cases tok <;> simp [parseJwt, exceptErrorCode, JsError.code, Except.map]
  · have hg : ∀ e : ProviderError,
        (generateAuthServerError e).code ≠ some ErrorCode.InvalidConfiguration := by
      intro e
      unfold generateAuthServerError
      split
      · simp [JsError.code]
      · split <;> simp [JsError.code]
    cases scopes with
    | otherValue d =>
      simp [OnBehalfOfUserCredential.getToken, validateScopesType, exceptErrorCode,
        JsError.code]
    | str s =>
      unfold OnBehalfOfUserCredential.getToken
      dsimp only [validateScopesType]
      split
      · split <;> simp [exceptErrorCode, JsError.code]
      · split
        next e heq => simpa [exceptErrorCode] using hg e
        next heq => simp [exceptErrorCode, JsError.code]
        next r heq => simp [exceptErrorCode]
    | arr xs =>
      unfold OnBehalfOfUserCredential.getToken
      dsimp only [validateScopesType]
      split
      · split <;> simp [exceptErrorCode, JsError.code]
      · split
        next e heq => simpa [exceptErrorCode] using hg e
        next heq => simp [exceptErrorCode, JsError.code]
        next r heq => simp [exceptErrorCode]

/-- C4: `generateAuthServerError` classifies a provider rejection, in order and
mutually exclusively, as interaction-required (`UiRequiredError`), then
assertion-expired (`TokenExpiredError` when the message carries AADSTS500133),
then the catch-all `ServiceError` built from the provider's message; and a
provider rejection of the scoped exchange surfaces from `getToken` exactly as
that mapped error. -/
theorem generateAuthServerError_classification (err : ProviderError) :
    (generateAuthServerError err).code = some (specProviderErrorCategory err)
  ∧ (specProviderErrorCategory err = .ServiceError →
      (generateAuthServerError err).message =
        failToAcquireTokenMessage (jsString err.errorMessage))
  ∧ strContains ((generateAuthServerError err).message) (jsString err.errorMessage) = true
  ∧ (∀ (cred : OnBehalfOfUserCredential) (scopes : ScopesArg) (provider : Provider)
      (nowMs : Nat),
      normalizeScopes scopes ≠ [] →
      provider cred.ssoToken.token (normalizeScopes scopes) = .throws err →
      (cred.getToken scopes provider nowMs).result = .error (generateAuthServerError err)) := by
  refine ⟨?_, ?_, ?_, ?_⟩
  · unfold generateAuthServerError specProviderErrorCategory
    rw [guard_eq_assertionExpiredSignature]
    split
    · rfl
    · split <;> rfl
  · intro hsvc
    unfold specProviderErrorCategory at hsvc
    unfold generateAuthServerError
    rw [guard_eq_assertionExpiredSignature]
    split
    · simp_all
    · split
      · simp_all
      · rfl
  · unfold generateAuthServerError
    split
    · exact strContains_append_right _ _
    · split
      · exact strContains_append_right _ _
      · exact strContains_append_right _ _
  · intro cred scopes provider nowMs hne hp
    rw [getToken_scoped_throws cred scopes provider nowMs err hne hp]

/-- A provider that resolves the exchange successfully. -/
def okProvider : Provider := fun _ _ => .returns (some ⟨"provider-token", 99⟩)

/-- C1 counterexample: with an SSO token expired at the call time (exp 5,
current epoch-second 1000000000) a scoped `getToken("User.Read")` does not fail
with `TokenExpiredError` — no local expiry check runs on the scoped path, and
with a provider that accepts the assertion the call succeeds. -/
theorem getToken_scoped_ignores_expiredSso_cex :
    ((1000000000000 : Nat) / 1000 > 5)
  ∧ (OnBehalfOfUserCredential.getToken ⟨⟨"sso-raw", 5⟩⟩ (.str "User.Read")
      okProvider 1000000000000).result = .ok ⟨"provider-token", 99⟩ := by
  decide

/-- C1 (amended): with scopes that normalize to the empty list an expired SSO
token makes `getToken` fail with `TokenExpiredError`; with non-empty scopes
`getToken` performs no local expiry check — whatever the current time, exactly
one provider exchange is attempted, and the call fails with
`TokenExpiredError` if and only if the provider itself rejects with a
non-interaction-required error whose message carries the AADSTS500133
signature. -/
theorem getToken_expiredSso_behavior (cred : OnBehalfOfUserCredential)
    (scopes : ScopesArg) (provider : Provider) (nowMs : Nat) :
    (nowMs / 1000 > cred.ssoToken.expiresOnTimestamp →
      validateScopesType scopes = .ok () →
      normalizeScopes scopes = [] →
      (cred.getToken scopes provider nowMs).result =
        .error (.withCode "Sso token has already expired." .TokenExpiredError))
  ∧ (normalizeScopes scopes ≠ [] →
      (cred.getToken scopes provider nowMs).providerCalls = 1
      ∧ (exceptErrorCode (cred.getToken scopes provider nowMs).result =
            some ErrorCode.TokenExpiredError ↔
          ∃ e, provider cred.ssoToken.token (normalizeScopes scopes) = .throws e
            ∧ e.name ≠ "InteractionRequiredAuthError"
            ∧ assertionExpiredSignature e.errorMessage = true)) := by
  constructor
  · intro hexp hval hempty
    rw [getToken_empty_expired cred scopes provider nowMs hval hempty hexp]
  · intro hne
    cases hp : provider cred.ssoToken.token (normalizeScopes scopes) with
    | throws e =>
      rw [getToken_scoped_throws cred scopes provider nowMs e hne hp]
      refine ⟨rfl, ?_⟩
      show (generateAuthServerError e).code = some ErrorCode.TokenExpiredError ↔ _
      rw [generateAuthServerError_code_eq]
      constructor
      · intro h
        obtain ⟨hn, hs⟩ :=
          (specCategory_eq_tokenExpired_iff e).mp (Option.some.inj h)
        exact ⟨e, rfl, hn, hs⟩
      · rintro ⟨e2, he2, hn, hs⟩
        injection he2 with he2
        subst he2
        rw [(specCategory_eq_tokenExpired_iff e).mpr ⟨hn, hs⟩]
    | returns r =>
      cases r with
      | none =>
        rw [getToken_scoped_returns_none cred scopes provider nowMs hne hp]
        refine ⟨rfl, ?_⟩
        show some ErrorCode.InternalError = some ErrorCode.TokenExpiredError ↔ _
        simp
      | some res =>
        rw [getToken_scoped_returns_some cred scopes provider nowMs res hne hp]
        refine ⟨rfl, ?_⟩
        show (none : Option ErrorCode) = some ErrorCode.TokenExpiredError ↔ _
        simp

/-- C5 counterexample: a scopes string made of one tab character is
whitespace-only — it normalizes to the empty list when split on whitespace —
yet `getToken` splits only on the space character, treats "\t" as a scope,
performs a network call and does not return the SSO token. -/
theorem getToken_whitespaceScope_network_cex :
    ("\t".data.all Char.isWhitespace = true)
  ∧ (OnBehalfOfUserCredential.getToken ⟨⟨"sso-raw", 100⟩⟩ (.str "\t")
      okProvider 5000).providerCalls = 1
  ∧ (OnBehalfOfUserCredential.getToken ⟨⟨"sso-raw", 100⟩⟩ (.str "\t")
      okProvider 5000).result ≠ .ok ⟨"sso-raw", 100⟩ := by
  decide

/-- C5 (amended): for every unexpired SSO token, any scopes value (string or
array) that normalizes to the empty list — splitting a string on the space
character and discarding empty entries — makes `getToken` return the stored
SSO token unchanged, with its original expiry, with no provider call and
unchanged state. -/
theorem getToken_emptyScopes_returns_ssoToken (cred : OnBehalfOfUserCredential)
    (scopes : ScopesArg) (provider : Provider) (nowMs : Nat)
    (hval : validateScopesType scopes = .ok ())
    (hempty : normalizeScopes scopes = [])
    (hfresh : nowMs / 1000 ≤ cred.ssoToken.expiresOnTimestamp) :
    cred.getToken scopes provider nowMs = ⟨.ok cred.ssoToken, 0, cred⟩ :=
  getToken_empty_fresh cred scopes provider nowMs hval hempty (Nat.not_lt.mpr hfresh)

/-- C5 witness: `getToken("")` on an unexpired SSO token returns it unchanged
with no provider call. -/
theorem getToken_emptyScopes_returns_ssoToken_witness :
    OnBehalfOfUserCredential.getToken ⟨⟨"original-sso", 100⟩⟩ (.str "") okProvider 5000 =
      ⟨.ok ⟨"original-sso", 100⟩, 0, ⟨⟨"original-sso", 100⟩⟩⟩ :=
  getToken_emptyScopes_returns_ssoToken ⟨⟨"original-sso", 100⟩⟩ (.str "") okProvider 5000
    rfl rfl (by decide)

/-- A provider whose successful result's `expiresOn.getTime()` is
1700000002000 milliseconds, i.e. epoch-second 1700000002. -/
def msExpiryProvider : Provider := fun _ _ => .returns (some ⟨"A1", 1700000002000⟩)

/-- C6 (code bug): the scoped exchange stores `expiresOn.getTime()` — epoch
MILLISECONDS — into `AccessToken.expiresOnTimestamp`, while the empty-scope
path returns the SSO token whose `expiresOnTimestamp` is the `exp` claim in
epoch SECONDS (and is compared against `Date.now() / 1000`): the same field of
the same return type carries two different units, contradicting the data model
(`expiresOnTimestamp: epoch-seconds`). -/
theorem getToken_scopedExchange_millisecond_expiry :
    (OnBehalfOfUserCredential.getToken ⟨⟨"sso-raw", 1700000003⟩⟩ (.str "User.Read")
        msExpiryProvider 1700000000000).result = .ok ⟨"A1", 1700000002000⟩
  ∧ (OnBehalfOfUserCredential.getToken ⟨⟨"sso-raw", 1700000003⟩⟩ (.str "")
        msExpiryProvider 1700000000000).result = .ok ⟨"sso-raw", 1700000003⟩
  ∧ (1700000002000 : Nat) ≠ 1700000002 := by
  decide

/-- C7 counterexample: on a decoded token whose `ver` claim is "3.0",
`parseToken` throws the bare JavaScript `Error("invalide token")`, which
carries no stable code at all — in particular not `UnsupportedTokenVersion`. -/
theorem parseToken_unknownVersion_bareError_cex :
    parseToken { ver := some "3.0" } = .error (.bare "invalide token")
  ∧ JsError.code (.bare "invalide token") = none
  ∧ JsError.code (.bare "invalide token") ≠ some ErrorCode.UnsupportedTokenVersion := by
  decide

/-- C7 (amended): for every decoded token whose `ver` claim is neither "1.0"
nor "2.0", `parseToken` fails — but with a bare untyped `Error` whose message
is "invalide token", not with a typed `UnsupportedTokenVersion` error. -/
theorem parseToken_unknownVersion_throws_bare (jwt : SqlTokenClaims)
    (h1 : jwt.ver ≠ some "1.0") (h2 : jwt.ver ≠ some "2.0") :
    parseToken jwt = .error (.bare "invalide token") := by
  unfold parseToken
  rw [if_neg h1, if_neg h2]

/-- C7 witness: a concrete `ver = "3.9"` token satisfies both hypotheses and
`parseToken` throws the bare error on it. -/
theorem parseToken_unknownVersion_throws_bare_witness :
    (({ ver := some "3.9" } : SqlTokenClaims).ver ≠ some "1.0")
  ∧ (({ ver := some "3.9" } : SqlTokenClaims).ver ≠ some "2.0")
  ∧ parseToken { ver := some "3.9" } = .error (.bare "invalide token") :=
  ⟨by decide, by decide,
    parseToken_unknownVersion_throws_bare { ver := some "3.9" } (by decide) (by decide)⟩

/-- C8: on every decodable token with `ver` "1.0" or "2.0", `parseToken`
succeeds and tags the result `User` exactly when the authentication-context
class claim (`appidacr` for v1, `azpacr` for v2) equals "0", and
`ServicePrincipal` for every other value of that claim. -/
theorem parseToken_userType_classification (jwt : SqlTokenClaims)
    (h : jwt.ver = some "1.0" ∨ jwt.ver = some "2.0") :
    ∃ info, parseToken jwt = .ok info
      ∧ (info.userType = .User ↔
          (if jwt.ver = some "1.0" then jwt.appidacr else jwt.azpacr) = some "0")
      ∧ (info.userType = .ServicePrincipal ↔
          (if jwt.ver = some "1.0" then jwt.appidacr else jwt.azpacr) ≠ some "0") := by
  rcases h with h | h
  · by_cases ha : jwt.appidacr = some "0"
    · exact ⟨{ name := jwt.name, objectId := jwt.oid, userType := .User },
        by simp [parseToken, h, ha], by simp [h, ha], by simp [h, ha]⟩
    · exact ⟨{ name := jwt.appid, objectId := jwt.oid, userType := .ServicePrincipal },
        by simp [parseToken, h, ha], by simp [h, ha], by simp [h, ha]⟩
  · by_cases ha : jwt.azpacr = some "0"
    · exact ⟨{ name := jwt.name, objectId := jwt.oid, userType := .User },
        by simp [parseToken, h, ha], by simp [h, ha], by simp [h, ha]⟩
    · exact ⟨{ name := jwt.appid, objectId := jwt.oid, userType := .ServicePrincipal },
        by simp [parseToken, h, ha], by simp [h, ha], by simp [h, ha]⟩

/-- A concrete v2 token claim set whose `azpacr` is "0". -/
def jwtV2acr0 : SqlTokenClaims := { ver := some "2.0", azpacr := some "0" }

/-- C8 witness: the classification at a concrete v2 token with `azpacr = "0"`. -/
theorem parseToken_userType_classification_witness :
    ∃ info, parseToken jwtV2acr0 = .ok info
      ∧ (info.userType = .User ↔
          (if jwtV2acr0.ver = some "1.0" then jwtV2acr0.appidacr else jwtV2acr0.azpacr) =
            some "0")
      ∧ (info.userType = .ServicePrincipal ↔
          (if jwtV2acr0.ver = some "1.0" then jwtV2acr0.appidacr else jwtV2acr0.azpacr) ≠
            some "0") :=
  parseToken_userType_classification jwtV2acr0 (Or.inr rfl)

/-- C9: the constructor fails on an SSO token that does not decode, whatever
the configuration; a successfully constructed credential was built from a
decodable token and stores exactly its raw string and its `exp` claim as the
held `AccessToken`. -/
theorem create_requires_decodable_ssoToken (cfg : Config) (raw : String) (exp : Nat)
    (cred : OnBehalfOfUserCredential) (tok : RawSsoToken) :
    (∃ e, OnBehalfOfUserCredential.create cfg (.malformed raw) = .error e)
  ∧ (OnBehalfOfUserCredential.create cfg (.decodable raw exp) = .ok cred →
      cred.ssoToken = ⟨raw, exp⟩)
  ∧ (OnBehalfOfUserCredential.create cfg tok = .ok cred →
      ∃ r e2, tok = .decodable r e2 ∧ cred.ssoToken = ⟨r, e2⟩) := by
  refine ⟨?_, ?_, ?_⟩
  · by_cases hm : missingConfigurations cfg ≠ []
    · exact ⟨_, by unfold OnBehalfOfUserCredential.create; rw [if_pos hm]⟩
    · refine ⟨.withCode "Parse jwt token failed: invalid token" .InternalError, ?_⟩
      unfold OnBehalfOfUserCredential.create
      rw [if_neg hm]
      rfl
  · intro h
    unfold OnBehalfOfUserCredential.create at h
    by_cases hm : missingConfigurations cfg ≠ []
    · rw [if_pos hm] at h
      simp at h
    · rw [if_neg hm] at h
      have h2 : ({ ssoToken := { token := raw, expiresOnTimestamp := exp } } :
          OnBehalfOfUserCredential) = cred := by
        simpa [parseJwt, Except.map, RawSsoToken.raw] using h
      rw [← h2]
  · intro h
    unfold OnBehalfOfUserCredential.create at h
    by_cases hm : missingConfigurations cfg ≠ []
    · rw [if_pos hm] at h
      simp at h
    · rw [if_neg hm] at h
      cases tok with
      | malformed r => simp [parseJwt, Except.map] at h
      | decodable r e2 =>
        have h2 : ({ ssoToken := { token := r, expiresOnTimestamp := e2 } } :
            OnBehalfOfUserCredential) = cred := by
          simpa [parseJwt, Except.map, RawSsoToken.raw] using h
        exact ⟨r, e2, rfl, by rw [← h2]⟩

/-- C10: `getToken` mutates nothing — the credential state after any call
(failing or not) is the state before it — so after any failing call, a
subsequent `getToken` with empty scopes before the SSO expiry still returns
the original stored SSO token. -/
theorem getToken_state_unchanged_on_error (cred : OnBehalfOfUserCredential)
    (scopes : ScopesArg) (provider : Provider) (nowMs : Nat) (e : JsError)
    (provider2 : Provider) (now2 : Nat) :
    ((cred.getToken scopes provider nowMs).cred = cred)
  ∧ ((cred.getToken scopes provider nowMs).result = .error e →
      now2 / 1000 ≤ cred.ssoToken.expiresOnTimestamp →
      (((cred.getToken scopes provider nowMs).cred).getToken (.str "") provider2 now2).result =
        .ok cred.ssoToken) := by
  refine ⟨getToken_cred_unchanged cred scopes provider nowMs, ?_⟩
  intro herr hfresh
  rw [getToken_cred_unchanged cred scopes provider nowMs,
    getToken_empty_fresh cred (.str "") provider2 now2 rfl rfl (Nat.not_lt.mpr hfresh)]

/-- A remote authentication endpoint that issues a long-lived token. -/
def idemRemote : List String → Except JsError AccessToken :=
  fun _ => .ok ⟨"A1", 10000000000⟩

/-- A remote authentication endpoint whose token expires at epoch-ms 200000. -/
def marginRemote : List String → Except JsError AccessToken :=
  fun _ => .ok ⟨"A1", 200000⟩

/-- C2 counterexample: two identical broker calls (t = 0 ms, then t = 100000
ms) both strictly before the cached token's expiry (200000 ms) perform TWO
exchange calls, not one — at the second call the token is inside the 5-minute
near-expiry margin and is treated as absent. -/
theorem brokerGetToken_nearExpiry_double_exchange_cex :
    ((100000 : Nat) < 200000)
  ∧ (brokerGetToken ⟨⟨[]⟩⟩ "uid" "cid" "tid" (.str "User.Read") marginRemote 0).result =
      .ok ⟨"A1", 200000⟩
  ∧ (brokerGetToken ⟨⟨[]⟩⟩ "uid" "cid" "tid" (.str "User.Read") marginRemote 0).exchangeCalls
    + (brokerGetToken
        (brokerGetToken ⟨⟨[]⟩⟩ "uid" "cid" "tid" (.str "User.Read") marginRemote 0).state
        "uid" "cid" "tid" (.str "User.Read") marginRemote 100000).exchangeCalls = 2 := by
  decide

/-- C2 (amended): for every identity, tenant and non-empty scope set, calling
the cached broker `getToken` twice with identical arguments — starting from a
key not in the cache, with a successful exchange — returns the same
`AccessToken` on both calls and performs exactly one exchange call in total,
provided the second call happens while the token is not yet near-expired
(more than the 5-minute refresh margin before its expiry). -/
theorem brokerGetToken_cache_idempotent (cache0 : TokenCache)
    (uid cid tid : String) (scopes : ScopesArg)
    (remote : List String → Except JsError AccessToken) (tok : AccessToken)
    (t1 t2 : Nat)
    (_hscopes : normalizeScopes scopes ≠ [])
    (hcold : cache0.get (getAccessTokenCacheKey uid cid tid scopes) = none)
    (hremote : remote (normalizeScopes scopes) = .ok tok)
    (hfresh : isAccessTokenNearExpired t2 tok.expiresOnTimestamp = false) :
    (brokerGetToken ⟨cache0⟩ uid cid tid scopes remote t1).result = .ok tok
  ∧ (brokerGetToken (brokerGetToken ⟨cache0⟩ uid cid tid scopes remote t1).state
      uid cid tid scopes remote t2).result = .ok tok
  ∧ (brokerGetToken ⟨cache0⟩ uid cid tid scopes remote t1).exchangeCalls
    + (brokerGetToken (brokerGetToken ⟨cache0⟩ uid cid tid scopes remote t1).state
        uid cid tid scopes remote t2).exchangeCalls = 1 := by
  have h1 : brokerGetToken ⟨cache0⟩ uid cid tid scopes remote t1 =
      ⟨.ok tok, 1, ⟨cache0.set (getAccessTokenCacheKey uid cid tid scopes) tok⟩⟩ := by
    unfold brokerGetToken
    simp only [hcold, hremote]
  have h2 : brokerGetToken
      ⟨cache0.set (getAccessTokenCacheKey uid cid tid scopes) tok⟩
      uid cid tid scopes remote t2 =
      ⟨.ok tok, 0, ⟨cache0.set (getAccessTokenCacheKey uid cid tid scopes) tok⟩⟩ := by
    unfold brokerGetToken
    simp only [TokenCache.get_set_self, hfresh, Bool.false_eq_true, if_false]
  refine ⟨by rw [h1], ?_, ?_⟩
  · rw [h1]
    exact congrArg BrokerOutcome.result h2
  · rw [h1]
    rw [show (⟨.ok tok, 1,
        ⟨cache0.set (getAccessTokenCacheKey uid cid tid scopes) tok⟩⟩ :
        BrokerOutcome).state =
      ⟨cache0.set (getAccessTokenCacheKey uid cid tid scopes) tok⟩ from rfl, h2]
    rfl

/-- C2 witness: a cold cache, a concrete remote endpoint and a second call
well before the margin — one exchange in total, same token both times. -/
theorem brokerGetToken_cache_idempotent_witness :
    (brokerGetToken ⟨⟨[]⟩⟩ "uid" "cid" "tid" (.str "User.Read") idemRemote 0).result =
      .ok ⟨"A1", 10000000000⟩
  ∧ (brokerGetToken
      (brokerGetToken ⟨⟨[]⟩⟩ "uid" "cid" "tid" (.str "User.Read") idemRemote 0).state
      "uid" "cid" "tid" (.str "User.Read") idemRemote 1000).result =
      .ok ⟨"A1", 10000000000⟩
  ∧ (brokerGetToken ⟨⟨[]⟩⟩ "uid" "cid" "tid" (.str "User.Read") idemRemote 0).exchangeCalls
    + (brokerGetToken
        (brokerGetToken ⟨⟨[]⟩⟩ "uid" "cid" "tid" (.str "User.Read") idemRemote 0).state
        "uid" "cid" "tid" (.str "User.Read") idemRemote 1000).exchangeCalls = 1 :=
  brokerGetToken_cache_idempotent ⟨[]⟩ "uid" "cid" "tid" (.str "User.Read") idemRemote
    ⟨"A1", 10000000000⟩ 0 1000 (by decide) rfl rfl (by decide)

end TeamsFx
